import Mathlib

/-!
Verification of the peripheral-protocol layer of a CircuitPython data
acquisition firmware (`software_can_circuit_python.py`): multiplexed ADC
sampling, MCP2515 CAN controller bring-up and frame transmission, and CSV
logging to an SD card.  The Python methods are shallowly embedded as pure
Lean functions; SPI traffic is modelled as explicit traces (lists of byte
bursts, or per-conversion records), bus responses as an oracle function,
and the filesystem as an explicit record.
-/

namespace CanPressure

/-! ## Analog sampler (`read_adc_channel`, `set_mux_channel`, `sample_all_channels`) -/

/-- The ADC128S022 command byte built in `read_adc_channel`:
`command = 0x80 | ((channel & 0x07) << 4)`. -/
def adc_command (channel : Nat) : Nat :=
  0x80 ||| ((channel &&& 0x07) <<< 4)

/-- The value computed by `read_adc_channel` from the two raw SPI response
bytes: `value = ((result[0] & 0x0F) << 8) | result[1]`. -/
def read_adc_channel (channel b0 b1 : Nat) : Nat :=
  let _ := adc_command channel
  ((b0 &&& 0x0F) <<< 8) ||| b1

/-- The four multiplexer select-line values driven by `set_mux_channel`:
`s0 = bool(channel & 1)`, `s1 = bool((channel >> 1) & 1)`,
`s2 = bool((channel >> 2) & 1)`, `s3 = bool((channel >> 3) & 1)`. -/
def set_mux_channel (channel : Nat) : Bool × Bool × Bool × Bool :=
  (((channel &&& 0x01) != 0),
   (((channel >>> 1) &&& 0x01) != 0),
   (((channel >>> 2) &&& 0x01) != 0),
   (((channel >>> 3) &&& 0x01) != 0))

/-- One ADC conversion performed inside `sample_all_channels`: the mux
select setting applied immediately before it (if any), the command byte
sent to the ADC, and the `adc_data` index the result is stored at. -/
structure Conversion where
  muxBefore : Option (Bool × Bool × Bool × Bool)
  cmd : Nat
  storeIdx : Nat
deriving DecidableEq, Repr

/-- First loop of `sample_all_channels`:
`for i in range(1, 8): self.adc_data[i] = self.read_adc_channel(i)`.
The oracle `env` gives the two raw response bytes of each SPI transaction,
numbered 0..22 across the whole call. -/
def sample_direct (env : Nat → Nat × Nat) (st : List Conversion × List Nat) :
    List Conversion × List Nat :=
  (List.range' 1 7).foldl
    (fun acc i =>
      let r := env (i - 1)
      (acc.1 ++ [⟨none, adc_command i, i⟩],
       acc.2.set i (read_adc_channel i r.1 r.2)))
    st

/-- Second loop of `sample_all_channels`:
`for i in range(16): self.set_mux_channel(i); self.adc_data[i + 7] = self.read_adc_channel(0)`. -/
def sample_mux (env : Nat → Nat × Nat) (st : List Conversion × List Nat) :
    List Conversion × List Nat :=
  (List.range 16).foldl
    (fun acc i =>
      let r := env (7 + i)
      (acc.1 ++ [⟨some (set_mux_channel i), adc_command 0, i + 7⟩],
       acc.2.set (i + 7) (read_adc_channel 0 r.1 r.2)))
    st

/-- `sample_all_channels`: the direct loop over ADC inputs 1..7 followed by
the multiplexed loop over mux sub-channels 0..15.  Returns the ordered
list of conversions performed and the updated `adc_data` vector. -/
def sample_all_channels (env : Nat → Nat × Nat) (adc_data : List Nat) :
    List Conversion × List Nat :=
  sample_mux env (sample_direct env ([], adc_data))

/-- The conversion sequence `sample_all_channels` actually performs,
written out explicitly: seven direct conversions with commands
`0x90..0xF0` stored at indices 1..7, then sixteen multiplexed conversions
with command `0x80` stored at indices 7..22, each preceded by the mux
select encoding of its sub-channel (s0 = LSB). -/
def expected_conversions : List Conversion :=
  [⟨none, 0x90, 1⟩, ⟨none, 0xA0, 2⟩, ⟨none, 0xB0, 3⟩, ⟨none, 0xC0, 4⟩,
   ⟨none, 0xD0, 5⟩, ⟨none, 0xE0, 6⟩, ⟨none, 0xF0, 7⟩,
   ⟨some (false, false, false, false), 0x80, 7⟩,
   ⟨some (true, false, false, false), 0x80, 8⟩,
   ⟨some (false, true, false, false), 0x80, 9⟩,
   ⟨some (true, true, false, false), 0x80, 10⟩,
   ⟨some (false, false, true, false), 0x80, 11⟩,
   ⟨some (true, false, true, false), 0x80, 12⟩,
   ⟨some (false, true, true, false), 0x80, 13⟩,
   ⟨some (true, true, true, false), 0x80, 14⟩,
   ⟨some (false, false, false, true), 0x80, 15⟩,
   ⟨some (true, false, false, true), 0x80, 16⟩,
   ⟨some (false, true, false, true), 0x80, 17⟩,
   ⟨some (true, true, false, true), 0x80, 18⟩,
   ⟨some (false, false, true, true), 0x80, 19⟩,
   ⟨some (true, false, true, true), 0x80, 20⟩,
   ⟨some (false, true, true, true), 0x80, 21⟩,
   ⟨some (true, true, true, true), 0x80, 22⟩]

/-! ## CAN link driver (`init_can_controller`, `send_can_message`, `send_adc_data_via_can`) -/

/-- The SPI bursts of `init_can_controller`, in order: the reset opcode,
then the four chip-select-low register-write bursts
(CANCTRL <- 0x80, register 0x2A <- 0x04, register 0x28 <- 0x00,
CANCTRL <- 0x00).  The code is straight-line, so the trace is fixed. -/
def init_can_controller : List (List Nat) :=
  [[0xC0],
   [0x02, 0x0F, 0x80],
   [0x02, 0x2A, 0x04],
   [0x02, 0x28, 0x00],
   [0x02, 0x0F, 0x00]]

/-- The register addresses written by one SPI burst, per the MCP2515
protocol: a burst `[0x02, addr, v1, ..., vk]` (WRITE opcode) writes the k
sequential registers `addr .. addr+k-1`; any other burst writes none. -/
def registers_written (burst : List Nat) : List Nat :=
  match burst with
  | 0x02 :: addr :: vals => (List.range vals.length).map (addr + ·)
  | _ => []

/-- Result of `send_can_message`: the chip-select-low bursts actually
written to SPI1, and whether a Python `ValueError` was raised while
building the byte buffer (a `bytes`/`bytearray` element must be 0..255;
the exception propagates after the first burst has already been sent). -/
structure TxResult where
  bursts : List (List Nat)
  raised : Bool
deriving DecidableEq, Repr

/-- `send_can_message(id, data)`: burst 1 is the load-TX-buffer command
`[0x40, 0x08]`; burst 2 is `[id >> 3, (id & 0x07) << 5, 0, 0, len(data)]`
followed by the payload; burst 3 is the request-to-send opcode `[0x81]`.
Building burst 2 raises if any byte is at least 256 (Python byte range),
in which case only burst 1 has been written. -/
def send_can_message (id : Nat) (data : List Nat) : TxResult :=
  let header := [id >>> 3, (id &&& 0x07) <<< 5, 0, 0, data.length]
  if ∀ b ∈ header ++ data, b < 256 then
    { bursts := [[0x40, 0x08], header ++ data, [0x81]], raised := false }
  else
    { bursts := [[0x40, 0x08]], raised := true }

/-- `struct.pack(">H", value)`: the two big-endian bytes of a 16-bit
value. -/
def pack_be16 (v : Nat) : List Nat :=
  [v >>> 8, v % 256]

/-- The chunk start offsets of `range(0, n, 8)` used by
`send_adc_data_via_can`. -/
def chunk_starts (n : Nat) : List Nat :=
  (List.range ((n + 7) / 8)).map (8 * ·)

/-- `send_adc_data_via_can`: packs every reading with `struct.pack(">H")`,
then for each chunk start `i` sends `all_bytes[i : i + min(8, len - i)]`
with CAN identifier `0x100 + i // 8`.  Returns the ordered list of
(identifier, chunk payload) pairs handed to `send_can_message`. -/
def send_adc_data_via_can (adc_data : List Nat) : List (Nat × List Nat) :=
  let all_bytes := adc_data.flatMap pack_be16
  (chunk_starts all_bytes.length).map
    (fun i => (0x100 + i / 8, (all_bytes.drop i).take (min 8 (all_bytes.length - i))))

/-! ## SD logging (`log_data_to_sd`) -/

/-- The header row written by `log_data_to_sd` when the file does not
exist: `"timestamp"` followed by `",adc{i}"` for i in 0..22 and a
newline. -/
def header_string : String :=
  (List.range 23).foldl (fun s i => s ++ ",adc" ++ toString i) "timestamp" ++ "\n"

/-- One data row of `log_data_to_sd`: the timestamp rendering followed by
`",{value}"` for every entry of `adc_data` and a newline. -/
def data_row (ts : String) (adc_data : List Nat) : String :=
  adc_data.foldl (fun s v => s ++ "," ++ toString v) ts ++ "\n"

/-- Spec-side rendering of the header row (section 6 of the spec):
`timestamp,adc0,adc1,...,adc22` newline-terminated. -/
def spec_header : String :=
  "timestamp,adc0,adc1,adc2,adc3,adc4,adc5,adc6,adc7,adc8,adc9,adc10,adc11,adc12,adc13,adc14,adc15,adc16,adc17,adc18,adc19,adc20,adc21,adc22\n"

/-- Spec-side rendering of a data row (section 6 of the spec): the
timestamp followed by the readings, comma-separated, newline-terminated. -/
def spec_data_row (ts : String) (values : List Nat) : String :=
  ts ++ (values.map (fun v => "," ++ toString v)).foldr (· ++ ·) "\n"

/-- The log file on the SD card: whether it exists (`os.stat` succeeds)
and its content. -/
structure SdFile where
  present : Bool
  content : String
deriving DecidableEq, Repr

/-- Observable outcome of one `log_data_to_sd` call: the resulting file,
how many `storage.mount` attempts were made, whether the data row was
written, and whether an exception escaped the call. -/
structure LogOutcome where
  file : SdFile
  remounts : Nat
  wroteRow : Bool
  raised : Bool
deriving DecidableEq, Repr

/-- The write path of `log_data_to_sd` once the directory listing (or the
remount) has succeeded: create the file with the header row if it is
absent, then append one data row. -/
def write_log_record (file : SdFile) (ts : String) (adc_data : List Nat)
    (attempts : Nat) : LogOutcome :=
  let base := if file.present then file.content else header_string
  { file := { present := true, content := base ++ data_row ts adc_data },
    remounts := attempts, wroteRow := true, raised := false }

/-- `log_data_to_sd`: `os.listdir("/sd")` failing triggers exactly one
`storage.mount` attempt; if that also fails the function returns (the
exception is caught and printed).  Otherwise the record is written.
`listing_ok` and `remount_ok` model whether those two host operations
succeed. -/
def log_data_to_sd (listing_ok remount_ok : Bool) (file : SdFile)
    (ts : String) (adc_data : List Nat) : LogOutcome :=
  if listing_ok then
    write_log_record file ts adc_data 0
  else if remount_ok then
    write_log_record file ts adc_data 1
  else
    { file := file, remounts := 1, wroteRow := false, raised := false }

/-! ## Helper lemmas -/

/-- A fold whose step appends one element to the first component
accumulates the mapped list on the right. -/
theorem foldl_accum_fst {α : Type} (g : α → Conversion)
    (h : (List Conversion × List Nat) → α → List Nat) :
    ∀ (l : List α) (st : List Conversion × List Nat),
      (l.foldl (fun acc i => (acc.1 ++ [g i], h acc i)) st).1 = st.1 ++ l.map g := by
  intro l
  induction l with
  | nil => intro st; simp
  | cons a t ih =>
      intro st
      rw [List.foldl_cons, ih, List.map_cons]
      simp

/-- The conversion trace of the direct sampling loop. -/
theorem sample_direct_fst (env : Nat → Nat × Nat) (st : List Conversion × List Nat) :
    (sample_direct env st).1 =
      st.1 ++ (List.range' 1 7).map (fun i => ⟨none, adc_command i, i⟩) :=
  foldl_accum_fst (fun i => ⟨none, adc_command i, i⟩)
    (fun acc i => acc.2.set i (read_adc_channel i (env (i - 1)).1 (env (i - 1)).2))
    (List.range' 1 7) st

/-- The conversion trace of the multiplexed sampling loop. -/
theorem sample_mux_fst (env : Nat → Nat × Nat) (st : List Conversion × List Nat) :
    (sample_mux env st).1 =
      st.1 ++ (List.range 16).map (fun i => ⟨some (set_mux_channel i), adc_command 0, i + 7⟩) :=
  foldl_accum_fst (fun i => ⟨some (set_mux_channel i), adc_command 0, i + 7⟩)
    (fun acc i => acc.2.set (i + 7) (read_adc_channel 0 (env (7 + i)).1 (env (7 + i)).2))
    (List.range 16) st

/-- A fold whose every step preserves entry 0 of the second component
preserves it overall. -/
theorem foldl_snd_zero {α : Type}
    (f : (List Conversion × List Nat) → α → (List Conversion × List Nat)) :
    ∀ (l : List α) (st : List Conversion × List Nat),
      (∀ acc, ∀ a ∈ l, ((f acc a).2)[0]? = (acc.2)[0]?) →
      ((l.foldl f st).2)[0]? = (st.2)[0]? := by
  intro l
  induction l with
  | nil => intro st _; rfl
  | cons a t ih =>
      intro st hf
      rw [List.foldl_cons,
        ih _ (fun acc b hb => hf acc b (List.mem_cons_of_mem a hb)),
        hf st a (List.mem_cons_self a t)]

/-! ## Theorems for the claims -/

/-- C1 (counterexample): the claim asserts that for logical channel index 0
`sample_all_channels` issues the ADC command byte `0x80 | (0 << 4)` for
that channel; in fact no conversion of the call targets index 0 at all
(the direct loop runs over indices 1..7), so the claim is false at
channel 0. -/
theorem c1_counterexample :
    ¬ ∃ c ∈ (sample_all_channels (fun _ => (0, 0)) (List.replicate 23 0)).1,
        c.storeIdx = 0 ∧ c.cmd = 0x80 ||| (0 <<< 4) := by
  decide

/-- C1 (amended): for every response oracle and prior data vector, the
conversions performed by `sample_all_channels`, in order, are: direct
conversions for indices 1..7 with command byte `0x80 | (index << 4)` and no
mux change, then, for each index 7..22, the mux select lines set to the
binary encoding of (index - 7) (LSB on the first select line) followed by
command byte `0x80`; index 0 receives no conversion. -/
theorem c1_amended_conversions (env : Nat → Nat × Nat) (adc_data : List Nat) :
    (sample_all_channels env adc_data).1 = expected_conversions := by
  show (sample_mux env (sample_direct env ([], adc_data))).1 = _
  rw [sample_mux_fst, sample_direct_fst]
  show ([] : List Conversion) ++ _ ++ _ = _
  decide

/-- C10: `sample_all_channels` never writes entry 0 of the reading vector:
for every response oracle and prior vector, entry 0 after the call equals
entry 0 before it (the direct loop writes indices 1..7 and the
multiplexed loop indices 7..22); in particular, starting from the
all-zero vector of the constructor, entry 0 is still 0. -/
theorem c10_entry_zero_never_written (env : Nat → Nat × Nat) (adc_data : List Nat) :
    ((sample_all_channels env adc_data).2)[0]? = adc_data[0]? ∧
    ((sample_all_channels env (List.replicate 23 0)).2)[0]? = some 0 := by
  have key : ∀ (d : List Nat), ((sample_all_channels env d).2)[0]? = d[0]? := by
    intro d
    show ((sample_mux env (sample_direct env ([], d))).2)[0]? = d[0]?
    unfold sample_mux sample_direct
    rw [foldl_snd_zero _ _ _ ?hmux, foldl_snd_zero _ _ _ ?hdir]
    case hmux =>
      intro acc a _
      exact List.getElem?_set_ne (by omega)
    case hdir =>
      intro acc a ha
      obtain ⟨i, _, rfl⟩ := List.mem_range'.mp ha
      exact List.getElem?_set_ne (by omega)
  exact ⟨key adc_data, (key (List.replicate 23 0)).trans rfl⟩

/-- C2 (code evaluation at the failing input): with the oracle making
SPI transaction k decode to value k+1 and the all-zero initial vector,
the vector after `sample_all_channels` is
`[0, 1, 2, 3, 4, 5, 6, 8, 9, ..., 23]`: entry 0 keeps its stale initial
value instead of the conversion of ADC input 1 (which is 1 and lands at
entry 1), and the direct conversion of ADC input 7 (value 7) is
overwritten at entry 7 by mux sub-channel 0 (value 8). -/
theorem c2_vector_after_sampling :
    (sample_all_channels (fun k => (0, k + 1)) (List.replicate 23 0)).2 =
      [0, 1, 2, 3, 4, 5, 6, 8, 9, 10, 11, 12, 13, 14, 15, 16,
       17, 18, 19, 20, 21, 22, 23] := by
  decide

/-- C7: for all raw response bytes `b0`, `b1` in 0..255, the value
returned by `read_adc_channel` equals `((b0 & 0x0F) << 8) | b1` and lies
in 0..4095. -/
theorem c7_read_adc_channel_decode (channel b0 b1 : Nat)
    (h0 : b0 < 256) (h1 : b1 < 256) :
    read_adc_channel channel b0 b1 = ((b0 &&& 0x0F) <<< 8) ||| b1 ∧
    read_adc_channel channel b0 b1 < 4096 := by
  refine ⟨rfl, ?_⟩
  show ((b0 &&& 0x0F) <<< 8) ||| b1 < 4096
  have ha : b0 &&& 0x0F < 16 := Nat.lt_of_le_of_lt Nat.and_le_right (by norm_num)
  have hb : (b0 &&& 0x0F) <<< 8 < 4096 := by
    rw [Nat.shiftLeft_eq]
    omega
  have h2 : ((b0 &&& 0x0F) <<< 8) ||| b1 < 2 ^ 12 :=
    Nat.or_lt_two_pow (by norm_num at hb ⊢; omega) (by norm_num; omega)
  norm_num at h2
  omega

/-- C7 (witness): evaluation at `b0 = 0xAB`, `b1 = 0xCD`. -/
theorem c7_witness :
    read_adc_channel 3 0xAB 0xCD = ((0xAB &&& 0x0F) <<< 8) ||| 0xCD ∧
    read_adc_channel 3 0xAB 0xCD < 4096 :=
  c7_read_adc_channel_decode 3 0xAB 0xCD (by decide) (by decide)

/-- Helper: when every byte of the header and payload fits in 0..255,
`send_can_message` writes its three bursts and raises nothing. -/
theorem send_can_message_ok (id : Nat) (data : List Nat)
    (hid : id < 0x800) (hlen : data.length < 256) (hdata : ∀ b ∈ data, b < 256) :
    send_can_message id data =
      { bursts := [[0x40, 0x08],
                   [id >>> 3, (id &&& 0x07) <<< 5, 0, 0, data.length] ++ data,
                   [0x81]],
        raised := false } := by
  unfold send_can_message
  rw [if_pos]
  intro b hb
  rcases List.mem_append.mp hb with h | h
  · have hsh : id >>> 3 = id / 2 ^ 3 := Nat.shiftRight_eq_div_pow id 3
    have hand : id &&& 0x07 ≤ 7 := Nat.and_le_right
    have hshl : (id &&& 0x07) <<< 5 = (id &&& 0x07) * 2 ^ 5 := Nat.shiftLeft_eq _ 5
    simp only [List.mem_cons, List.mem_singleton] at h
    rcases h with rfl | rfl | rfl | rfl | rfl | h
    · omega
    · omega
    · omega
    · omega
    · omega
    · exact absurd h (List.not_mem_nil b)
  · exact hdata b h

/-- C3 (counterexample): a 9-byte payload with an in-range identifier is
not rejected: `send_can_message` raises nothing and writes all three
bursts, with the DLC byte equal to 9 and all nine payload bytes sent. -/
theorem c3_counterexample :
    (send_can_message 0x123 (List.replicate 9 0)).raised = false ∧
    (send_can_message 0x123 (List.replicate 9 0)).bursts =
      [[0x40, 0x08],
       [0x24, 0x60, 0, 0, 9, 0, 0, 0, 0, 0, 0, 0, 0, 0],
       [0x81]] := by
  decide

/-- C3 (amended): `send_can_message` performs no validation.  A payload
longer than 8 bytes (as long as every buffer byte fits in 0..255) is
transmitted in full with the DLC byte equal to the payload length; an
identifier of 12 or more bits makes building the second burst raise a
`ValueError`, but only after the first two-byte burst has already been
written to the controller. -/
theorem c3_amended_no_validation (id : Nat) (data : List Nat) :
    (0x7FF < id →
      (send_can_message id data).raised = true ∧
      (send_can_message id data).bursts = [[0x40, 0x08]]) ∧
    (id ≤ 0x7FF → data.length < 256 → (∀ b ∈ data, b < 256) →
      (send_can_message id data).raised = false ∧
      (send_can_message id data).bursts =
        [[0x40, 0x08],
         [id >>> 3, (id &&& 0x07) <<< 5, 0, 0, data.length] ++ data,
         [0x81]]) := by
  constructor
  · intro hid
    have hsh : id >>> 3 = id / 2 ^ 3 := Nat.shiftRight_eq_div_pow id 3
    have hbig : ¬ (id >>> 3 < 256) := by omega
    unfold send_can_message
    rw [if_neg]
    · exact ⟨rfl, rfl⟩
    · intro hall
      exact hbig (hall (id >>> 3) (List.mem_append_left _ (List.mem_cons_self _ _)))
  · intro hid hlen hdata
    rw [send_can_message_ok id data (by omega) hlen hdata]
    exact ⟨rfl, rfl⟩

/-- C3 (witness): evaluation of both branches of the amended claim, at
`id = 0x800` (oversized identifier) and at `id = 0x7FF` with a 9-byte
payload. -/
theorem c3_witness :
    ((send_can_message 0x800 [5]).raised = true ∧
     (send_can_message 0x800 [5]).bursts = [[0x40, 0x08]]) ∧
    ((send_can_message 0x7FF (List.replicate 9 1)).raised = false ∧
     (send_can_message 0x7FF (List.replicate 9 1)).bursts =
       [[0x40, 0x08],
        [0x7FF >>> 3, (0x7FF &&& 0x07) <<< 5, 0, 0,
         (List.replicate 9 1).length] ++ List.replicate 9 1,
        [0x81]]) :=
  ⟨(c3_amended_no_validation 0x800 [5]).1 (by decide),
   (c3_amended_no_validation 0x7FF (List.replicate 9 1)).2
     (by decide) (by decide) (by decide)⟩

/-- C6: for every identifier in the 11-bit range and payload of at most 8
bytes (each a byte value), the second chip-select burst of
`send_can_message` is exactly
`[id >> 3, (id & 0x07) << 5, 0, 0, len(data)]` followed by the payload
bytes. -/
theorem c6_second_burst (id : Nat) (data : List Nat)
    (hid : id ≤ 0x7FF) (hlen : data.length ≤ 8) (hdata : ∀ b ∈ data, b < 256) :
    (send_can_message id data).bursts[1]? =
      some ([id >>> 3, (id &&& 0x07) <<< 5, 0, 0, data.length] ++ data) := by
  rw [send_can_message_ok id data (by omega) (by omega) hdata]
  rfl

/-- C6 (witness): evaluation at `id = 0x123`, payload `[1, 2, 3]`. -/
theorem c6_witness :
    (send_can_message 0x123 [1, 2, 3]).bursts[1]? =
      some [0x24, 0x60, 0, 0, 3, 1, 2, 3] :=
  (c6_second_burst 0x123 [1, 2, 3] (by decide) (by decide) (by decide)).trans
    (by decide)

/-- C4 (code evaluation): after the reset opcode burst `[0xC0]`,
`init_can_controller` issues exactly 4 register writes, to addresses
0x0F (CANCTRL, configuration mode), 0x2A, 0x28, and 0x0F (CANCTRL,
normal mode); the burst `[0x02, 0x2A, 0x04]` carries a single value byte
and therefore writes a single register, and register 0x29 (CNF2 on the
MCP2515 register map) is never written, so the required 5 register
writes do not occur. -/
theorem c4_only_four_register_writes :
    init_can_controller[0]? = some [0xC0] ∧
    (init_can_controller.drop 1).flatMap registers_written =
      [0x0F, 0x2A, 0x28, 0x0F] ∧
    ((init_can_controller.drop 1).flatMap registers_written).length = 4 ∧
    0x29 ∉ (init_can_controller.drop 1).flatMap registers_written := by
  decide

/-- Helper: the packed byte stream has two bytes per reading. -/
theorem length_flatMap_pack (l : List Nat) :
    (l.flatMap pack_be16).length = 2 * l.length := by
  induction l with
  | nil => rfl
  | cons a t ih =>
      rw [List.flatMap_cons, List.length_append, ih]
      simp [pack_be16]
      omega

/-- Helper: an 8-byte chunk followed by the rest of the stream
reassembles the stream. -/
theorem take_drop_chain (B : List Nat) (i : Nat) :
    (B.drop i).take 8 ++ B.drop (i + 8) = B.drop i := by
  rw [← List.drop_drop]
  exact List.take_append_drop 8 (B.drop i)

/-- C5: for a 23-reading vector, `send_adc_data_via_can` emits exactly 6
messages with identifiers 0x100..0x105 in ascending order, whose payloads
have lengths 8, 8, 8, 8, 8, 6 and concatenate back to the 46-byte
big-endian-packed stream of the readings. -/
theorem c5_chunking (adc_data : List Nat) (hlen : adc_data.length = 23) :
    (send_adc_data_via_can adc_data).map Prod.fst =
      [0x100, 0x101, 0x102, 0x103, 0x104, 0x105] ∧
    (send_adc_data_via_can adc_data).map (fun m => m.2.length) =
      [8, 8, 8, 8, 8, 6] ∧
    ((send_adc_data_via_can adc_data).map Prod.snd).flatten =
      adc_data.flatMap pack_be16 := by
  have hB : (adc_data.flatMap pack_be16).length = 46 := by
    rw [length_flatMap_pack, hlen]
  have hmsgs : send_adc_data_via_can adc_data =
      [(0x100, (adc_data.flatMap pack_be16).take 8),
       (0x101, ((adc_data.flatMap pack_be16).drop 8).take 8),
       (0x102, ((adc_data.flatMap pack_be16).drop 16).take 8),
       (0x103, ((adc_data.flatMap pack_be16).drop 24).take 8),
       (0x104, ((adc_data.flatMap pack_be16).drop 32).take 8),
       (0x105, ((adc_data.flatMap pack_be16).drop 40).take 6)] := by
    simp only [send_adc_data_via_can]
    rw [hB]
    rfl
  rw [hmsgs]
  refine ⟨rfl, ?_, ?_⟩
  · simp [hB]
  · simp only [List.map_cons, List.map_nil, List.flatten_cons, List.flatten_nil,
      List.append_nil]
    have h40 : ((adc_data.flatMap pack_be16).drop 40).take 6 =
        (adc_data.flatMap pack_be16).drop 40 :=
      List.take_of_length_le (by simp [hB])
    rw [h40]
    have c32 : ((adc_data.flatMap pack_be16).drop 32).take 8 ++
        (adc_data.flatMap pack_be16).drop 40 =
        (adc_data.flatMap pack_be16).drop 32 := take_drop_chain _ 32
    have c24 : ((adc_data.flatMap pack_be16).drop 24).take 8 ++
        (adc_data.flatMap pack_be16).drop 32 =
        (adc_data.flatMap pack_be16).drop 24 := take_drop_chain _ 24
    have c16 : ((adc_data.flatMap pack_be16).drop 16).take 8 ++
        (adc_data.flatMap pack_be16).drop 24 =
        (adc_data.flatMap pack_be16).drop 16 := take_drop_chain _ 16
    have c8h : ((adc_data.flatMap pack_be16).drop 8).take 8 ++
        (adc_data.flatMap pack_be16).drop 16 =
        (adc_data.flatMap pack_be16).drop 8 := take_drop_chain _ 8
    rw [c32, c24, c16, c8h, List.take_append_drop]

/-- C5 (witness): evaluation at the 23-reading vector `[0, 1, ..., 22]`. -/
theorem c5_witness :
    (send_adc_data_via_can (List.range 23)).map Prod.fst =
      [0x100, 0x101, 0x102, 0x103, 0x104, 0x105] ∧
    (send_adc_data_via_can (List.range 23)).map (fun m => m.2.length) =
      [8, 8, 8, 8, 8, 6] ∧
    ((send_adc_data_via_can (List.range 23)).map Prod.snd).flatten =
      (List.range 23).flatMap pack_be16 :=
  c5_chunking (List.range 23) (by decide)

/-- Helper: the comma fold of `log_data_to_sd` renders as the timestamp
followed by one `,value` piece per reading. -/
theorem row_foldl_foldr (l : List Nat) (s : String) :
    l.foldl (fun acc v => acc ++ "," ++ toString v) s ++ "\n" =
      s ++ (l.map (fun v => "," ++ toString v)).foldr (· ++ ·) "\n" := by
  induction l generalizing s with
  | nil => rfl
  | cons a t ih =>
      rw [List.foldl_cons, List.map_cons, List.foldr_cons, ih]
      simp [String.append_assoc]

/-- Helper: the source's data row equals the spec's rendering of it. -/
theorem data_row_eq_spec (ts : String) (l : List Nat) :
    data_row ts l = spec_data_row ts l :=
  row_foldl_foldr l ts

/-- Helper: the source's header row equals the spec's literal
`timestamp,adc0,adc1,...,adc22` line. -/
theorem header_eq : header_string = spec_header := by decide

/-- C8: whenever the directory listing (or the remount) succeeds,
`log_data_to_sd` leaves the file present with content equal to the old
content — or, exactly when the file did not exist, the header row
`timestamp,adc0,...,adc22` — followed by the new data row: the timestamp
and the 23 readings in channel order, comma-separated and
newline-terminated. -/
theorem c8_log_format (listing_ok remount_ok : Bool) (file : SdFile)
    (ts : String) (adc_data : List Nat)
    (h : listing_ok = true ∨ remount_ok = true) :
    (log_data_to_sd listing_ok remount_ok file ts adc_data).file.content =
      (if file.present then file.content else spec_header) ++
        spec_data_row ts adc_data ∧
    (log_data_to_sd listing_ok remount_ok file ts adc_data).file.present = true := by
  cases listing_ok <;> cases remount_ok <;>
    simp_all [log_data_to_sd, write_log_record, data_row_eq_spec, header_eq]

/-- C8 (witness): evaluation with a missing file, then with an existing
file. -/
theorem c8_witness :
    ((log_data_to_sd true false (SdFile.mk false "") "0.5" (List.replicate 23 0)).file.content =
      (if (SdFile.mk false "").present then (SdFile.mk false "").content else spec_header) ++
        spec_data_row "0.5" (List.replicate 23 0) ∧
     (log_data_to_sd true false (SdFile.mk false "") "0.5" (List.replicate 23 0)).file.present = true) ∧
    ((log_data_to_sd true true (SdFile.mk true "old") "1.5" (List.replicate 23 7)).file.content =
      (if (SdFile.mk true "old").present then (SdFile.mk true "old").content else spec_header) ++
        spec_data_row "1.5" (List.replicate 23 7) ∧
     (log_data_to_sd true true (SdFile.mk true "old") "1.5" (List.replicate 23 7)).file.present = true) :=
  ⟨c8_log_format true false (SdFile.mk false "") "0.5" (List.replicate 23 0) (Or.inl rfl),
   c8_log_format true true (SdFile.mk true "old") "1.5" (List.replicate 23 7) (Or.inl rfl)⟩

/-- C9: when the directory listing fails, `log_data_to_sd` makes exactly
one remount attempt; if the remount succeeds the record is written
normally (the ordinary write path, with one recorded attempt), and if it
also fails the call returns with the file untouched, nothing written and
no exception raised. -/
theorem c9_remount_once (remount_ok : Bool) (file : SdFile) (ts : String)
    (adc_data : List Nat) :
    (log_data_to_sd false remount_ok file ts adc_data).remounts = 1 ∧
    (remount_ok = true →
      log_data_to_sd false remount_ok file ts adc_data =
        write_log_record file ts adc_data 1) ∧
    (remount_ok = false →
      log_data_to_sd false remount_ok file ts adc_data =
        { file := file, remounts := 1, wroteRow := false, raised := false }) := by
  cases remount_ok <;> simp [log_data_to_sd, write_log_record]

/-- C9 (witness): evaluation of both remount outcomes. -/
theorem c9_witness :
    (log_data_to_sd false false (SdFile.mk true "x") "1.5" []).remounts = 1 ∧
    log_data_to_sd false false (SdFile.mk true "x") "1.5" [] =
      { file := SdFile.mk true "x", remounts := 1, wroteRow := false, raised := false } ∧
    log_data_to_sd false true (SdFile.mk true "x") "1.5" [] =
      write_log_record (SdFile.mk true "x") "1.5" [] 1 :=
  ⟨(c9_remount_once false (SdFile.mk true "x") "1.5" []).1,
   (c9_remount_once false (SdFile.mk true "x") "1.5" []).2.2 rfl,
   (c9_remount_once true (SdFile.mk true "x") "1.5" []).2.1 rfl⟩

end CanPressure
